import Mathlib

/-!
Verification development for the kiosk comment queue dispatcher
(src/services/comment_service.go) and the ticket service behaviour its
repository documents and tests.  Pure Go functions become Lean functions;
collaborator behaviour (JSON codec, repository, broker) is passed in as
explicit oracles so every control path of the dispatcher is a value of the
embedding.
-/

namespace Kiosk

/-- Raw wire payload: a byte sequence, modelled as a string. -/
abbrev Bytes := String

/-- One structured error entry: a stable machine readable code and a message. -/
structure ErrorItem where
  code : String
  message : String
  deriving DecidableEq

/-- The structured error payload: a collection of error entries. -/
structure ErrorResponse where
  entries : List ErrorItem
  deriving DecidableEq

/-- Modelled from the spec: errors.InvalidRequestBody of the errors package
(not under src/), the structured malformed request error payload. -/
def InvalidRequestBody : ErrorResponse :=
  ⟨[⟨"request.invalid_body", "Could not read the request body."⟩]⟩

/-- Modelled from the spec: the typed create request of web/data
(not under src/): entity fields sans identifier and timestamps. -/
structure CreateCommentRequest where
  ticketId : Int
  owner : String
  content : String
  metadata : String
  deriving DecidableEq

/-- Modelled from the spec: the typed update request of web/data
(not under src/): entity fields including the identifier. -/
structure UpdateCommentRequest where
  id : Int
  owner : String
  content : String
  metadata : String
  deriving DecidableEq

/-- Modelled from the spec: the single numeric identifier request of web/data
(not under src/), used by the load and delete operations. -/
structure ID where
  id : Int
  deriving DecidableEq

/-- The comment entity handed to and returned by the repository. -/
structure Comment where
  id : Int
  ticketId : Int
  owner : String
  content : String
  metadata : String
  deriving DecidableEq

/-- The typed response for a successful load. -/
structure CommentResponse where
  id : Int
  ticketId : Int
  owner : String
  content : String
  metadata : String
  deriving DecidableEq

/-- CreateCommentRequest.AsComment: the entity to insert, identifier unset. -/
def asComment (r : CreateCommentRequest) : Comment :=
  ⟨0, r.ticketId, r.owner, r.content, r.metadata⟩

/-- UpdateCommentRequest.AsComment: the entity to update, by identifier. -/
def asUpdatedComment (r : UpdateCommentRequest) : Comment :=
  ⟨r.id, 0, r.owner, r.content, r.metadata⟩

/-- CommentResponse.LoadFromComment: copy the loaded entity into the response. -/
def loadFromComment (c : Comment) : CommentResponse :=
  ⟨c.id, c.ticketId, c.owner, c.content, c.metadata⟩

/-- A request scoped context: its creation instant and its deadline. -/
structure Ctx where
  start : Nat
  deadline : Nat
  deriving DecidableEq

/-- context.WithTimeout(context.Background(), 5*time.Second) taken at
instant now: a fresh context whose deadline is five time units later. -/
def mkCtx (now : Nat) : Ctx := ⟨now, now + 5⟩

/-- An inbound broker message: its raw payload. -/
structure Msg where
  data : Bytes
  deriving DecidableEq

/-- Behaviour of the collaborators of one handler invocation: the JSON
decoder (encoding/json), the request validators of web/data and the comment
repository of models (both not under src/, kept as oracles). -/
structure Env where
  unmarshalCreate : Bytes → Except String CreateCommentRequest
  unmarshalUpdate : Bytes → Except String UpdateCommentRequest
  unmarshalID : Bytes → Except String ID
  validateCreate : CreateCommentRequest → Option ErrorResponse
  validateUpdate : UpdateCommentRequest → Option ErrorResponse
  repoInsert : Ctx → Comment → Option ErrorResponse
  repoLoadByID : Ctx → Int → Except ErrorResponse Comment
  repoUpdate : Ctx → Comment → Option ErrorResponse
  repoDeleteByID : Ctx → Int → Option ErrorResponse

/-- A value handed to s.reply for JSON encoding. -/
inductive ReplyValue where
  | err (e : ErrorResponse)
  | comment (c : CommentResponse)
  deriving DecidableEq

/-- One published reply: either a JSON encoded value (s.reply) or the
explicit no content reply (s.replyNoContent). -/
inductive Published where
  | value (v : ReplyValue)
  | noContent
  deriving DecidableEq

/-- Observable outcome of one handler invocation: the replies it published,
in order, and the repository calls it made, each with its context. -/
structure HandlerResult where
  published : List Published
  repoCalls : List Ctx
  deriving DecidableEq

/-- s.create: fresh five unit deadline, decode, validate, insert, reply. -/
def create (env : Env) (now : Nat) (msg : Msg) : HandlerResult :=
  let ctx := mkCtx now
  match env.unmarshalCreate msg.data with
  | .error _ => ⟨[.value (.err InvalidRequestBody)], []⟩
  | .ok req =>
    match env.validateCreate req with
    | some e => ⟨[.value (.err e)], []⟩
    | none =>
      match env.repoInsert ctx (asComment req) with
      | some e => ⟨[.value (.err e)], [ctx]⟩
      | none => ⟨[.noContent], [ctx]⟩

/-- s.load: fresh five unit deadline, decode, load by identifier, reply. -/
def load (env : Env) (now : Nat) (msg : Msg) : HandlerResult :=
  let ctx := mkCtx now
  match env.unmarshalID msg.data with
  | .error _ => ⟨[.value (.err InvalidRequestBody)], []⟩
  | .ok i =>
    match env.repoLoadByID ctx i.id with
    | .error e => ⟨[.value (.err e)], [ctx]⟩
    | .ok c => ⟨[.value (.comment (loadFromComment c))], [ctx]⟩

/-- s.update: fresh five unit deadline, decode, validate, update, reply. -/
def update (env : Env) (now : Nat) (msg : Msg) : HandlerResult :=
  let ctx := mkCtx now
  match env.unmarshalUpdate msg.data with
  | .error _ => ⟨[.value (.err InvalidRequestBody)], []⟩
  | .ok req =>
    match env.validateUpdate req with
    | some e => ⟨[.value (.err e)], []⟩
    | none =>
      match env.repoUpdate ctx (asUpdatedComment req) with
      | some e => ⟨[.value (.err e)], [ctx]⟩
      | none => ⟨[.noContent], [ctx]⟩

/-- s.delete: fresh five unit deadline, decode, delete by identifier, reply. -/
def delete (env : Env) (now : Nat) (msg : Msg) : HandlerResult :=
  let ctx := mkCtx now
  match env.unmarshalID msg.data with
  | .error _ => ⟨[.value (.err InvalidRequestBody)], []⟩
  | .ok i =>
    match env.repoDeleteByID ctx i.id with
    | some e => ⟨[.value (.err e)], [ctx]⟩
    | none => ⟨[.noContent], [ctx]⟩

/-- Behaviour of json.Marshal on reply values: bytes, or a failure. -/
structure Codec where
  marshal : ReplyValue → Except String Bytes

/-- reply, _ := json.Marshal(t): the encoding error is discarded; a failed
Marshal leaves nil bytes, so the published payload is then empty. -/
def marshalBytes (c : Codec) (v : ReplyValue) : Bytes :=
  match c.marshal v with
  | .ok b => b
  | .error _ => ""

/-- The payload bytes handed to msg.Respond for one published reply:
s.replyNoContent responds with the zero length payload. -/
def wireBytes (c : Codec) : Published → Bytes
  | .value v => marshalBytes c v
  | .noContent => ""

/-- Behaviour of msg.Respond: accepts the payload, may fail. -/
structure Transport where
  respond : Bytes → Except String Unit

/-- s.reply: one Marshal whose error is discarded, then exactly one Respond
whose error is discarded; returns normally.  The first component lists the
payloads of the publish attempts made, the second is the return value. -/
def reply (c : Codec) (tr : Transport) (v : ReplyValue) : List Bytes × Unit :=
  let b := marshalBytes c v
  let _ := tr.respond b
  ([b], ())

/-- s.replyNoContent: exactly one Respond of the zero length payload, its
error discarded; returns normally. -/
def replyNoContent (tr : Transport) : List Bytes × Unit :=
  let _ := tr.respond ""
  ([""], ())

/-- The four logical operations a subscription can be bound to. -/
inductive HandlerId where
  | create
  | load
  | update
  | delete
  deriving DecidableEq

/-- One subscription request: subject, queue group name and bound handler. -/
structure SubSpec where
  subject : String
  group : String
  handler : HandlerId
  deriving DecidableEq

/-- The create subscription of Start. -/
def createSpec : SubSpec :=
  ⟨"kiosk.comments.create", "kiosk.comments.create_group", .create⟩

/-- The load subscription of Start. -/
def loadSpec : SubSpec :=
  ⟨"kiosk.comments.load", "kiosk.comments.load_group", .load⟩

/-- The update subscription of Start. -/
def updateSpec : SubSpec :=
  ⟨"kiosk.comments.update", "kiosk.comments.update_group", .update⟩

/-- The delete subscription of Start. -/
def deleteSpec : SubSpec :=
  ⟨"kiosk.comments.delete", "kiosk.comments.delete_group", .delete⟩

/-- The fixed subscription set of the comment service, in the order Start
establishes them. -/
def commentSubSpecs : List SubSpec :=
  [createSpec, loadSpec, updateSpec, deleteSpec]

/-- Behaviour of natsClient.QueueSubscribe: a subscription token or an
error, per subscription request. -/
structure Broker where
  queueSubscribe : SubSpec → Except String Nat

/-- Observable outcome of one Start call: the returned error (if any), the
subscription requests attempted in order, the subscription tokens
established, the tokens unsubscribed during the call, and whether the
supervisory task was launched. -/
structure StartResult where
  err : Option String
  attempted : List SubSpec
  established : List Nat
  unsubscribed : List Nat
  awaitSpawned : Bool
  deriving DecidableEq

/-- CommentService.Start: subscribe the four operations in order, returning
the first subscription error; on full success launch the supervisory task
over the four subscriptions.  No unsubscription happens inside Start. -/
def Start (b : Broker) : StartResult :=
  match b.queueSubscribe createSpec with
  | .error e => ⟨some e, [createSpec], [], [], false⟩
  | .ok s1 =>
    match b.queueSubscribe loadSpec with
    | .error e => ⟨some e, [createSpec, loadSpec], [s1], [], false⟩
    | .ok s2 =>
      match b.queueSubscribe updateSpec with
      | .error e => ⟨some e, [createSpec, loadSpec, updateSpec], [s1, s2], [], false⟩
      | .ok s3 =>
        match b.queueSubscribe deleteSpec with
        | .error e => ⟨some e, commentSubSpecs, [s1, s2, s3], [], false⟩
        | .ok s4 => ⟨none, commentSubSpecs, [s1, s2, s3, s4], [], true⟩

/-- Phase of the supervisory task launched by Start: not running, blocked
on the stop channel, unsubscribing the bound subscriptions one by one, or
exited. -/
inductive AwaitPhase where
  | off
  | waiting
  | draining (k : Nat)
  | exited
  deriving DecidableEq

/-- State of the shutdown machinery: the supervisory task phase, whether a
Stop call is blocked sending on the unbuffered stop channel, how many Stop
calls have completed, and which bound subscriptions are still subscribed. -/
structure Sys where
  phase : AwaitPhase
  sender : Bool
  stopsDone : Nat
  subs : List Bool
  deriving DecidableEq

/-- Small step semantics of await and Stop.  The stop channel is
unbuffered: a send completes only in a rendezvous with the blocked
receiver, which also completes the Stop call.  After the rendezvous the
supervisory task unsubscribes every bound subscription in order, then
exits. -/
inductive Step : Sys → Sys → Prop where
  | rendezvous (s : Sys) (h1 : s.sender = true) (h2 : s.phase = .waiting) :
      Step s { s with sender := false, stopsDone := s.stopsDone + 1, phase := .draining 0 }
  | unsub (s : Sys) (k : Nat) (h1 : s.phase = .draining k) (h2 : k < s.subs.length) :
      Step s { s with subs := s.subs.set k false, phase := .draining (k + 1) }
  | finish (s : Sys) (k : Nat) (h1 : s.phase = .draining k) (h2 : s.subs.length ≤ k) :
      Step s { s with phase := .exited }

/-- Reachability along the step relation. -/
abbrev Reachable : Sys → Sys → Prop := Relation.ReflTransGen Step

/-- State right after a successful Start over n subscriptions, with a Stop
call in flight when stopCalled holds. -/
def initStarted (n : Nat) (stopCalled : Bool) : Sys :=
  ⟨.waiting, stopCalled, 0, List.replicate n true⟩

/-- State of a Stop call made with no running Start: a sender is blocked on
the stop channel and no supervisory task exists. -/
def initNoStart : Sys := ⟨.off, true, 0, []⟩

/-- How many leading subscriptions a supervisory task in the given phase
has already unsubscribed, out of n bound ones. -/
def phaseDrained (p : AwaitPhase) (n : Nat) : Nat :=
  match p with
  | .off => 0
  | .waiting => 0
  | .draining k => k
  | .exited => n

/-- How many leading subscriptions the supervisory task has already
unsubscribed in a given state. -/
def drainedUpTo (s : Sys) : Nat := phaseDrained s.phase s.subs.length

/-- Inductive invariant of the shutdown machinery. -/
def SysInv (s : Sys) : Prop :=
  drainedUpTo s ≤ s.subs.length ∧
  (∀ i, i < drainedUpTo s → s.subs[i]? = some false) ∧
  s.stopsDone ≤ 1 ∧
  (s.sender = true → s.stopsDone = 0)

/-- Modelled from the spec: the ticket status enumeration (the generated
rpc types are not under src/); creation only permits the open subset,
rejecting a terminal resolved status. -/
inductive TicketStatus where
  | new
  | inProgress
  | resolved
  deriving DecidableEq

/-- Modelled from the spec: the importance level enumeration. -/
inductive Importance where
  | low
  | normal
  | high
  | critical
  deriving DecidableEq

/-- Modelled from the spec: the creatable subset of statuses, rejecting a
terminal resolved status at creation time. -/
def creatable : TicketStatus → Bool
  | .resolved => false
  | _ => true

/-- Modelled from the spec: the ticket entity fields carried by a create or
update request. -/
structure Ticket where
  id : Int
  issuer : String
  owner : String
  subject : String
  content : String
  metadata : String
  importance : Importance
  status : TicketStatus
  deriving DecidableEq

/-- A string that is empty or whitespace only, that is, trims to nothing. -/
def isBlank (s : String) : Bool := s.data.all Char.isWhitespace

/-- Modelled from the spec: create validation of the ticket service (not
under src/), in the fixed order issuer, owner, subject, content, status;
whitespace only counts as empty for subject and content; the status must be
in the creatable subset.  Returns the code of the first violated rule. -/
def validateCreateTicket (t : Ticket) : Option String :=
  if t.issuer = "" then some "create_ticket.empty_issuer"
  else if t.owner = "" then some "create_ticket.empty_owner"
  else if isBlank t.subject then some "create_ticket.empty_subject"
  else if isBlank t.content then some "create_ticket.empty_content"
  else if creatable t.status = false then some "create_ticket.invalid_status"
  else none

/-- Modelled from the spec: the statuses an update may set; the update
validation test rejects a new status and accepts a resolved one. -/
def updatable : TicketStatus → Bool
  | .new => false
  | _ => true

/-- Modelled from the spec: update validation of the ticket service (not
under src/), in the order its test exhibits: the identifier must be a
positive integer, then the status must be allowed for an update.  Returns
the code of the first violated rule. -/
def validateUpdateTicket (t : Ticket) : Option String :=
  if t.id < 1 then some "update_ticket.invalid_id"
  else if updatable t.status = false then some "update_ticket.invalid_ticket_status"
  else none

/-- A ticket row as stored by the repository: the assigned identifier, the
entity fields and both timestamps. -/
structure StoredTicket where
  id : Nat
  issuer : String
  owner : String
  subject : String
  content : String
  metadata : String
  importance : Importance
  status : TicketStatus
  issuedAt : Nat
  updatedAt : Nat
  deriving DecidableEq

/-- The entity fields of a new ticket, sans identifier and timestamps. -/
structure NewTicket where
  issuer : String
  owner : String
  subject : String
  content : String
  metadata : String
  importance : Importance
  status : TicketStatus
  deriving DecidableEq

/-- Modelled from the spec: the repository state (the persistence layer is
not under src/): the stored rows, the next identifier the storage assigns,
and the current time, which strictly advances across operations. -/
structure Repo where
  rows : List StoredTicket
  nextId : Nat
  clock : Nat
  deriving DecidableEq

/-- Modelled from the spec: insert assigns the next identifier and sets both
timestamps to the current time. -/
def insertTicket (r : Repo) (e : NewTicket) : Repo × Nat :=
  let now := r.clock + 1
  ({ rows := r.rows ++
       [⟨r.nextId, e.issuer, e.owner, e.subject, e.content, e.metadata,
         e.importance, e.status, now, now⟩],
     nextId := r.nextId + 1, clock := now }, r.nextId)

/-- Modelled from the spec: load returns the row with the given identifier,
or nothing when no such row exists. -/
def loadTicket (r : Repo) (id : Nat) : Repo × Option StoredTicket :=
  let now := r.clock + 1
  ({ r with clock := now }, r.rows.find? (fun t => t.id == id))

/-- Modelled from the spec: a successful update refreshes the fields of the
row with the given identifier and sets its updated timestamp to the current
time; it fails when no such row exists. -/
def updateTicket (r : Repo) (id : Nat) (st : TicketStatus) : Repo × Bool :=
  let now := r.clock + 1
  if r.rows.any (fun t => t.id == id) then
    ({ r with
       rows := r.rows.map (fun t =>
         if t.id == id then { t with status := st, updatedAt := now } else t),
       clock := now }, true)
  else
    ({ r with clock := now }, false)

/-- Well formed repository state: every stored identifier is below the next
assigned one and every timestamp is at or before the current time. -/
def wf (r : Repo) : Bool :=
  r.rows.all (fun t =>
    decide (t.id < r.nextId) && decide (t.issuedAt ≤ r.clock) &&
      decide (t.updatedAt ≤ r.clock))

/-- Test fixture: an environment where every collaborator succeeds. -/
def envAllOk : Env where
  unmarshalCreate := fun _ => .ok ⟨1, "o", "c", ""⟩
  unmarshalUpdate := fun _ => .ok ⟨1, "o", "c", ""⟩
  unmarshalID := fun _ => .ok ⟨1⟩
  validateCreate := fun _ => none
  validateUpdate := fun _ => none
  repoInsert := fun _ _ => none
  repoLoadByID := fun _ _ => .ok ⟨1, 1, "o", "c", ""⟩
  repoUpdate := fun _ _ => none
  repoDeleteByID := fun _ _ => none

/-- Test fixture: an environment whose decoder always fails. -/
def envDecodeFail : Env where
  unmarshalCreate := fun _ => .error "bad"
  unmarshalUpdate := fun _ => .error "bad"
  unmarshalID := fun _ => .error "bad"
  validateCreate := fun _ => none
  validateUpdate := fun _ => none
  repoInsert := fun _ _ => none
  repoLoadByID := fun _ _ => .ok ⟨1, 1, "o", "c", ""⟩
  repoUpdate := fun _ _ => none
  repoDeleteByID := fun _ _ => none

/-- Test fixture: an environment whose decoder yields the identifier 0 and
whose repository succeeds on every call. -/
def envIdZero : Env where
  unmarshalCreate := fun _ => .ok ⟨1, "o", "c", ""⟩
  unmarshalUpdate := fun _ => .ok ⟨1, "o", "c", ""⟩
  unmarshalID := fun _ => .ok ⟨0⟩
  validateCreate := fun _ => none
  validateUpdate := fun _ => none
  repoInsert := fun _ _ => none
  repoLoadByID := fun _ _ => .ok ⟨0, 1, "o", "c", ""⟩
  repoUpdate := fun _ _ => none
  repoDeleteByID := fun _ _ => none

/-- Test fixture: a codec that encodes nothing successfully. -/
def codecFail : Codec := ⟨fun _ => .error "enc"⟩

/-- Test fixture: a codec that encodes every value to a marker payload. -/
def codecOk : Codec := ⟨fun _ => .ok "payload"⟩

/-- Test fixture: a transport that accepts every payload. -/
def transportOk : Transport := ⟨fun _ => .ok ()⟩

/-- Test fixture: a transport that rejects every payload. -/
def transportFail : Transport := ⟨fun _ => .error "down"⟩

/-- Test fixture: a broker on which every subscription succeeds. -/
def brokerOk : Broker := ⟨fun _ => .ok 7⟩

/-- Test fixture: a broker that rejects the update subscription only. -/
def brokerUpdateFails : Broker :=
  ⟨fun sp => if sp = updateSpec then .error "conn" else .ok 7⟩

/-- Test fixture: a whitespace only issuer with all other fields valid. -/
def blankIssuerTicket : Ticket :=
  ⟨0, " ", "09203091992", "Documentation", "Hello", "", .high, .new⟩

/-- Test fixture: the empty repository at time zero. -/
def emptyRepo : Repo := ⟨[], 1, 0⟩

/-- Test fixture: a valid new ticket. -/
def sampleNewTicket : NewTicket :=
  ⟨"Jibit", "09203091992", "Documentation", "Hello", "", .high, .new⟩

/-- Test fixture: the repository holding exactly the sample ticket. -/
def oneRowRepo : Repo := (insertTicket emptyRepo sampleNewTicket).1

/-- Helper: s.create publishes exactly one reply on every path. -/
theorem create_publishes_one (env : Env) (now : Nat) (msg : Msg) :
    (create env now msg).published.length = 1 := by
  cases h1 : env.unmarshalCreate msg.data with
  | error e => simp [create, h1]
  | ok req =>
    cases h2 : env.validateCreate req with
    | some e => simp [create, h1, h2]
    | none =>
      cases h3 : env.repoInsert (mkCtx now) (asComment req) with
      | some e => simp [create, h1, h2, h3]
      | none => simp [create, h1, h2, h3]

/-- Helper: s.load publishes exactly one reply on every path. -/
theorem load_publishes_one (env : Env) (now : Nat) (msg : Msg) :
    (load env now msg).published.length = 1 := by
  cases h1 : env.unmarshalID msg.data with
  | error e => simp [load, h1]
  | ok i =>
    cases h2 : env.repoLoadByID (mkCtx now) i.id with
    | error e => simp [load, h1, h2]
    | ok c => simp [load, h1, h2]

/-- Helper: s.update publishes exactly one reply on every path. -/
theorem update_publishes_one (env : Env) (now : Nat) (msg : Msg) :
    (update env now msg).published.length = 1 := by
  cases h1 : env.unmarshalUpdate msg.data with
  | error e => simp [update, h1]
  | ok req =>
    cases h2 : env.validateUpdate req with
    | some e => simp [update, h1, h2]
    | none =>
      cases h3 : env.repoUpdate (mkCtx now) (asUpdatedComment req) with
      | some e => simp [update, h1, h2, h3]
      | none => simp [update, h1, h2, h3]

/-- Helper: s.delete publishes exactly one reply on every path. -/
theorem delete_publishes_one (env : Env) (now : Nat) (msg : Msg) :
    (delete env now msg).published.length = 1 := by
  cases h1 : env.unmarshalID msg.data with
  | error e => simp [delete, h1]
  | ok i =>
    cases h2 : env.repoDeleteByID (mkCtx now) i.id with
    | some e => simp [delete, h1, h2]
    | none => simp [delete, h1, h2]

/-- C1: each of the four queue handlers publishes exactly one reply per
inbound message on every path; successful create, update and delete publish
the no content reply, whose wire bytes are the zero length payload and not
the string null; successful load publishes the encoded entity; and every
decode, validation and storage failure publishes a structured error
payload. -/
theorem handlers_reply_exactly_once (env : Env) (now : Nat) (msg : Msg) (c : Codec) :
    ((create env now msg).published.length = 1 ∧
      (load env now msg).published.length = 1 ∧
      (update env now msg).published.length = 1 ∧
      (delete env now msg).published.length = 1) ∧
    (wireBytes c Published.noContent = "" ∧ wireBytes c Published.noContent ≠ "null") ∧
    ((∀ req, env.unmarshalCreate msg.data = .ok req → env.validateCreate req = none →
        env.repoInsert (mkCtx now) (asComment req) = none →
        (create env now msg).published = [Published.noContent]) ∧
      (∀ req, env.unmarshalUpdate msg.data = .ok req → env.validateUpdate req = none →
        env.repoUpdate (mkCtx now) (asUpdatedComment req) = none →
        (update env now msg).published = [Published.noContent]) ∧
      (∀ i, env.unmarshalID msg.data = .ok i →
        env.repoDeleteByID (mkCtx now) i.id = none →
        (delete env now msg).published = [Published.noContent]) ∧
      (∀ i cm, env.unmarshalID msg.data = .ok i →
        env.repoLoadByID (mkCtx now) i.id = .ok cm →
        (load env now msg).published =
          [Published.value (ReplyValue.comment (loadFromComment cm))])) ∧
    ((∀ e, env.unmarshalCreate msg.data = .error e →
        (create env now msg).published = [Published.value (ReplyValue.err InvalidRequestBody)]) ∧
      (∀ req e, env.unmarshalCreate msg.data = .ok req → env.validateCreate req = some e →
        (create env now msg).published = [Published.value (ReplyValue.err e)]) ∧
      (∀ req e, env.unmarshalCreate msg.data = .ok req → env.validateCreate req = none →
        env.repoInsert (mkCtx now) (asComment req) = some e →
        (create env now msg).published = [Published.value (ReplyValue.err e)]) ∧
      (∀ e, env.unmarshalUpdate msg.data = .error e →
        (update env now msg).published = [Published.value (ReplyValue.err InvalidRequestBody)]) ∧
      (∀ req e, env.unmarshalUpdate msg.data = .ok req → env.validateUpdate req = some e →
        (update env now msg).published = [Published.value (ReplyValue.err e)]) ∧
      (∀ req e, env.unmarshalUpdate msg.data = .ok req → env.validateUpdate req = none →
        env.repoUpdate (mkCtx now) (asUpdatedComment req) = some e →
        (update env now msg).published = [Published.value (ReplyValue.err e)]) ∧
      (∀ e, env.unmarshalID msg.data = .error e →
        (load env now msg).published = [Published.value (ReplyValue.err InvalidRequestBody)] ∧
        (delete env now msg).published = [Published.value (ReplyValue.err InvalidRequestBody)]) ∧
      (∀ i e, env.unmarshalID msg.data = .ok i →
        env.repoLoadByID (mkCtx now) i.id = .error e →
        (load env now msg).published = [Published.value (ReplyValue.err e)]) ∧
      (∀ i e, env.unmarshalID msg.data = .ok i →
        env.repoDeleteByID (mkCtx now) i.id = some e →
        (delete env now msg).published = [Published.value (ReplyValue.err e)])) := by
  refine ⟨⟨create_publishes_one env now msg, load_publishes_one env now msg,
      update_publishes_one env now msg, delete_publishes_one env now msg⟩,
    ⟨rfl, by simp [wireBytes]⟩, ⟨?_, ?_, ?_, ?_⟩, ⟨?_, ?_, ?_, ?_, ?_, ?_, ?_, ?_, ?_⟩⟩
  all_goals intros
  all_goals simp [create, load, update, delete, *]

/-- C1 witness: with all collaborators succeeding, create publishes the no
content reply and load publishes exactly one reply. -/
theorem handlers_reply_exactly_once_witness :
    (create envAllOk 0 ⟨"x"⟩).published = [Published.noContent] ∧
    (load envAllOk 0 ⟨"x"⟩).published.length = 1 := by
  have h := handlers_reply_exactly_once envAllOk 0 ⟨"x"⟩ codecOk
  exact ⟨h.2.2.1.1 ⟨1, "o", "c", ""⟩ rfl rfl rfl, h.1.2.1⟩

/-- C2: on every payload the decoder rejects, each of the four handlers
replies with the structured invalid request body error and makes no
repository call. -/
theorem decode_failure_no_repo (env : Env) (now : Nat) (msg : Msg) :
    (∀ e, env.unmarshalCreate msg.data = .error e →
      create env now msg = ⟨[Published.value (ReplyValue.err InvalidRequestBody)], []⟩) ∧
    (∀ e, env.unmarshalUpdate msg.data = .error e →
      update env now msg = ⟨[Published.value (ReplyValue.err InvalidRequestBody)], []⟩) ∧
    (∀ e, env.unmarshalID msg.data = .error e →
      load env now msg = ⟨[Published.value (ReplyValue.err InvalidRequestBody)], []⟩ ∧
      delete env now msg = ⟨[Published.value (ReplyValue.err InvalidRequestBody)], []⟩) := by
  refine ⟨?_, ?_, ?_⟩ <;> intro e h <;> simp [create, update, load, delete, h]

/-- C2 witness: on a decoder that rejects everything, create replies with
the invalid request body error and delete makes no repository call. -/
theorem decode_failure_no_repo_witness :
    create envDecodeFail 0 ⟨"x"⟩ =
      ⟨[Published.value (ReplyValue.err InvalidRequestBody)], []⟩ ∧
    (delete envDecodeFail 0 ⟨"x"⟩).repoCalls = [] := by
  have h := decode_failure_no_repo envDecodeFail 0 ⟨"x"⟩
  refine ⟨h.1 "bad" rfl, ?_⟩
  rw [(h.2.2 "bad" rfl).2]

/-- C3: every repository call of every handler invocation carries the
context created at the start of that invocation, whose deadline is five
time units after its start; invocations starting at different instants have
different contexts, so no deadline is shared across invocations. -/
theorem deadline_fresh_per_invocation (env : Env) (now : Nat) (msg : Msg) :
    (∀ ctx, ctx ∈ (create env now msg).repoCalls → ctx = mkCtx now) ∧
    (∀ ctx, ctx ∈ (load env now msg).repoCalls → ctx = mkCtx now) ∧
    (∀ ctx, ctx ∈ (update env now msg).repoCalls → ctx = mkCtx now) ∧
    (∀ ctx, ctx ∈ (delete env now msg).repoCalls → ctx = mkCtx now) ∧
    (mkCtx now).start = now ∧ (mkCtx now).deadline = now + 5 ∧
    (∀ m, now ≠ m → mkCtx now ≠ mkCtx m) := by
  refine ⟨?_, ?_, ?_, ?_, rfl, rfl, fun m hne heq => hne (congrArg Ctx.start heq)⟩
  · intro ctx hm
    cases h1 : env.unmarshalCreate msg.data with
    | error e => simp [create, h1] at hm
    | ok req =>
      cases h2 : env.validateCreate req with
      | some e => simp [create, h1, h2] at hm
      | none =>
        cases h3 : env.repoInsert (mkCtx now) (asComment req) with
        | some e => simp [create, h1, h2, h3] at hm; exact hm
        | none => simp [create, h1, h2, h3] at hm; exact hm
  · intro ctx hm
    cases h1 : env.unmarshalID msg.data with
    | error e => simp [load, h1] at hm
    | ok i =>
      cases h2 : env.repoLoadByID (mkCtx now) i.id with
      | error e => simp [load, h1, h2] at hm; exact hm
      | ok c => simp [load, h1, h2] at hm; exact hm
  · intro ctx hm
    cases h1 : env.unmarshalUpdate msg.data with
    | error e => simp [update, h1] at hm
    | ok req =>
      cases h2 : env.validateUpdate req with
      | some e => simp [update, h1, h2] at hm
      | none =>
        cases h3 : env.repoUpdate (mkCtx now) (asUpdatedComment req) with
        | some e => simp [update, h1, h2, h3] at hm; exact hm
        | none => simp [update, h1, h2, h3] at hm; exact hm
  · intro ctx hm
    cases h1 : env.unmarshalID msg.data with
    | error e => simp [delete, h1] at hm
    | ok i =>
      cases h2 : env.repoDeleteByID (mkCtx now) i.id with
      | some e => simp [delete, h1, h2] at hm; exact hm
      | none => simp [delete, h1, h2] at hm; exact hm

/-- C3 witness: a successful create invocation starting at instant 3 calls
the repository with the context starting at 3 and expiring at 8, and that
context differs from the one of an invocation starting at 4. -/
theorem deadline_fresh_per_invocation_witness :
    mkCtx 3 = mkCtx 3 ∧ (mkCtx 3).deadline = 3 + 5 ∧ mkCtx 3 ≠ mkCtx 4 := by
  have h := deadline_fresh_per_invocation envAllOk 3 ⟨"x"⟩
  exact ⟨h.1 (mkCtx 3) (by simp [create, envAllOk]),
    h.2.2.2.2.2.1, h.2.2.2.2.2.2 4 (by decide)⟩

/-- C6: Start subscribes the four operations in order, each on its subject
with its queue group name; if a subscription fails, the first subscription
error is returned, the later subscriptions are not attempted, and the
already established subscriptions are left in place, with the supervisory
task not launched; on full success all four are established and the
supervisory task is launched. -/
theorem start_fail_fast (b : Broker) :
    (Start b).unsubscribed = [] ∧
    (∀ sp, sp ∈ commentSubSpecs → sp.group = sp.subject ++ "_group") ∧
    (∀ e, b.queueSubscribe createSpec = .error e →
      Start b = ⟨some e, [createSpec], [], [], false⟩) ∧
    (∀ s1 e, b.queueSubscribe createSpec = .ok s1 →
      b.queueSubscribe loadSpec = .error e →
      Start b = ⟨some e, [createSpec, loadSpec], [s1], [], false⟩) ∧
    (∀ s1 s2 e, b.queueSubscribe createSpec = .ok s1 →
      b.queueSubscribe loadSpec = .ok s2 →
      b.queueSubscribe updateSpec = .error e →
      Start b = ⟨some e, [createSpec, loadSpec, updateSpec], [s1, s2], [], false⟩) ∧
    (∀ s1 s2 s3 e, b.queueSubscribe createSpec = .ok s1 →
      b.queueSubscribe loadSpec = .ok s2 →
      b.queueSubscribe updateSpec = .ok s3 →
      b.queueSubscribe deleteSpec = .error e →
      Start b = ⟨some e, commentSubSpecs, [s1, s2, s3], [], false⟩) ∧
    (∀ s1 s2 s3 s4, b.queueSubscribe createSpec = .ok s1 →
      b.queueSubscribe loadSpec = .ok s2 →
      b.queueSubscribe updateSpec = .ok s3 →
      b.queueSubscribe deleteSpec = .ok s4 →
      Start b = ⟨none, commentSubSpecs, [s1, s2, s3, s4], [], true⟩) := by
  refine ⟨?_, by decide, ?_, ?_, ?_, ?_, ?_⟩
  · cases h1 : b.queueSubscribe createSpec with
    | error e => simp [Start, h1]
    | ok s1 =>
      cases h2 : b.queueSubscribe loadSpec with
      | error e => simp [Start, h1, h2]
      | ok s2 =>
        cases h3 : b.queueSubscribe updateSpec with
        | error e => simp [Start, h1, h2, h3]
        | ok s3 =>
          cases h4 : b.queueSubscribe deleteSpec with
          | error e => simp [Start, h1, h2, h3, h4]
          | ok s4 => simp [Start, h1, h2, h3, h4]
  all_goals intros
  all_goals simp [Start, *]

/-- C6 witness: a broker rejecting only the update subscription makes Start
return that error with create and load left established and nothing
unsubscribed; on a broker accepting everything Start returns no error. -/
theorem start_fail_fast_witness :
    Start brokerUpdateFails =
      ⟨some "conn", [createSpec, loadSpec, updateSpec], [7, 7], [], false⟩ ∧
    (Start brokerOk).err = none := by
  have h := start_fail_fast brokerUpdateFails
  have h2 := start_fail_fast brokerOk
  refine ⟨h.2.2.2.2.1 7 7 "conn" rfl rfl rfl, ?_⟩
  rw [h2.2.2.2.2.2.2 7 7 7 7 rfl rfl rfl rfl]

/-- Helper: the shutdown invariant holds right after a successful Start. -/
theorem sysInv_initStarted (n : Nat) (b : Bool) : SysInv (initStarted n b) := by
  refine ⟨Nat.zero_le _, ?_, Nat.zero_le _, fun _ => rfl⟩
  intro i hi
  exact absurd (show i < 0 from hi) (by omega)

/-- Helper: the shutdown invariant is preserved by every step. -/
theorem sysInv_step {s s2 : Sys} (hinv : SysInv s) (hs : Step s s2) : SysInv s2 := by
  obtain ⟨hle, hdr, hst, hsd⟩ := hinv
  cases hs with
  | rendezvous h1 h2 =>
    refine ⟨Nat.zero_le _, ?_, ?_, ?_⟩
    · intro i hi
      exact absurd (show i < 0 from hi) (by omega)
    · show s.stopsDone + 1 ≤ 1
      have := hsd h1
      omega
    · intro h
      exact absurd (show false = true from h) (by simp)
  | unsub k h1 h2 =>
    simp only [SysInv, drainedUpTo, phaseDrained, h1] at hle hdr
    refine ⟨?_, ?_, hst, hsd⟩
    · show k + 1 ≤ (s.subs.set k false).length
      simp only [List.length_set]
      omega
    · intro i hi
      have hi2 : i < k + 1 := hi
      show (s.subs.set k false)[i]? = some false
      rcases Nat.lt_or_ge i k with hik | hik
      · have hne : k ≠ i := by omega
        simp only [List.getElem?_set, hne, if_false]
        exact hdr i hik
      · have hik2 : i = k := by omega
        subst hik2
        simp [List.getElem?_set, h2]
  | finish k h1 h2 =>
    simp only [SysInv, drainedUpTo, phaseDrained, h1] at hle hdr
    refine ⟨Nat.le_refl _, ?_, hst, hsd⟩
    intro i hi
    have hi2 : i < s.subs.length := hi
    exact hdr i (by omega)

/-- Helper: the shutdown invariant holds in every reachable state. -/
theorem sysInv_reachable {s0 s : Sys} (h0 : SysInv s0) (h : Reachable s0 s) :
    SysInv s := by
  induction h with
  | refl => exact h0
  | tail _ hstep ih => exact sysInv_step ih hstep

/-- Helper: a draining supervisory task can always reach the exited phase. -/
theorem drain_exists (m : Nat) : ∀ (k sd : Nat) (b : Bool) (l : List Bool),
    l.length ≤ k + m →
    ∃ l2, Reachable ⟨.draining k, b, sd, l⟩ ⟨.exited, b, sd, l2⟩ := by
  induction m with
  | zero =>
    intro k sd b l hl
    exact ⟨l, Relation.ReflTransGen.single (Step.finish _ k rfl (show l.length ≤ k by omega))⟩
  | succ m ih =>
    intro k sd b l hl
    rcases Nat.lt_or_ge k l.length with hk | hk
    · obtain ⟨l2, hr⟩ := ih (k + 1) sd b (l.set k false)
        (show (l.set k false).length ≤ k + 1 + m by simp [List.length_set]; omega)
      exact ⟨l2, Relation.ReflTransGen.head (Step.unsub _ k rfl hk) hr⟩
    · exact ⟨l, Relation.ReflTransGen.single (Step.finish _ k rfl hk)⟩

/-- C7: the supervisory task blocks until it receives exactly one stop
signal: the only step out of the waiting phase is the rendezvous consuming
the one in flight Stop call; from a started system at most one Stop
completes, an exited supervisory task has unsubscribed every bound
subscription, and with a Stop in flight the exited phase is reachable;
a Stop call made with no running Start never completes: the blocked state
is the only reachable one. -/
theorem stop_await_lifecycle :
    (∀ s s2, Step s s2 → s.phase = .waiting →
      s.sender = true ∧
      s2 = { s with sender := false, stopsDone := s.stopsDone + 1,
                    phase := .draining 0 }) ∧
    (∀ n b s, Reachable (initStarted n b) s →
      s.stopsDone ≤ 1 ∧
      (s.phase = .exited → ∀ i, i < s.subs.length → s.subs[i]? = some false)) ∧
    (∀ n, ∃ s, Reachable (initStarted n true) s ∧ s.phase = .exited ∧
      s.stopsDone = 1 ∧ ∀ i, i < s.subs.length → s.subs[i]? = some false) ∧
    (∀ s, Reachable initNoStart s → s = initNoStart) := by
  refine ⟨?_, ?_, ?_, ?_⟩
  · intro s s2 hs hw
    cases hs with
    | rendezvous h1 h2 => exact ⟨h1, rfl⟩
    | unsub k h1 h2 => rw [hw] at h1; simp at h1
    | finish k h1 h2 => rw [hw] at h1; simp at h1
  · intro n b s hr
    obtain ⟨hle, hdr, hst, _⟩ := sysInv_reachable (sysInv_initStarted n b) hr
    refine ⟨hst, ?_⟩
    intro hex i hi
    refine hdr i ?_
    simp only [drainedUpTo, phaseDrained, hex]
    omega
  · intro n
    obtain ⟨l2, hr⟩ := drain_exists n 0 1 false (List.replicate n true) (by simp)
    have hreach : Reachable (initStarted n true) ⟨.exited, false, 1, l2⟩ :=
      Relation.ReflTransGen.head (Step.rendezvous (initStarted n true) rfl rfl) hr
    refine ⟨⟨.exited, false, 1, l2⟩, hreach, rfl, rfl, ?_⟩
    intro i hi
    obtain ⟨hle, hdr, _, _⟩ := sysInv_reachable (sysInv_initStarted n true) hreach
    refine hdr i (show i < l2.length from hi)
  · intro s hr
    induction hr with
    | refl => rfl
    | tail _ hstep ih =>
      rw [ih] at hstep
      cases hstep with
      | rendezvous h1 h2 => simp [initNoStart] at h2
      | unsub k h1 h2 => simp [initNoStart] at h1
      | finish k h1 h2 => simp [initNoStart] at h1

/-- C7 witness: the started state with a Stop in flight has at most one
completed Stop, the blocked Stop state with no Start only reaches itself,
and the rendezvous out of the waiting phase consumes the signal. -/
theorem stop_await_lifecycle_witness :
    (initStarted 2 true).stopsDone ≤ 1 ∧ initNoStart = initNoStart ∧
    (initStarted 2 true).sender = true := by
  have h := stop_await_lifecycle
  refine ⟨(h.2.1 2 true (initStarted 2 true) Relation.ReflTransGen.refl).1,
    h.2.2.2 initNoStart Relation.ReflTransGen.refl, ?_⟩
  exact (h.1 (initStarted 2 true) _ (Step.rendezvous (initStarted 2 true) rfl rfl) rfl).1

/-- C10: s.reply and s.replyNoContent attempt exactly one publication each,
discarding both the encoding outcome and the publish outcome: a marshal
failure still publishes (the empty payload), a publish failure changes
nothing observable, both return normally, and every handler invocation
therefore attempts exactly one publication per inbound message. -/
theorem reply_discards_errors (env : Env) (now : Nat) (msg : Msg)
    (c c2 : Codec) (tr tr2 : Transport) (v : ReplyValue) :
    (reply c tr v).1.length = 1 ∧
    (reply c tr v).2 = () ∧
    reply c tr v = reply c tr2 v ∧
    (replyNoContent tr).1 = [""] ∧
    replyNoContent tr = replyNoContent tr2 ∧
    (∀ e, c2.marshal v = .error e → (reply c2 tr v).1 = [""]) ∧
    (create env now msg).published.length = 1 ∧
    (load env now msg).published.length = 1 ∧
    (update env now msg).published.length = 1 ∧
    (delete env now msg).published.length = 1 := by
  refine ⟨rfl, rfl, rfl, rfl, rfl, ?_, create_publishes_one env now msg,
    load_publishes_one env now msg, update_publishes_one env now msg,
    delete_publishes_one env now msg⟩
  intro e h
  simp [reply, marshalBytes, h]

/-- C10 witness: with a codec that fails and a transport that fails, reply
still attempts exactly one publication, of the empty payload. -/
theorem reply_discards_errors_witness :
    (reply codecFail transportFail (ReplyValue.err InvalidRequestBody)).1 = [""] ∧
    (reply codecOk transportFail (ReplyValue.err InvalidRequestBody)).1.length = 1 := by
  have h := reply_discards_errors envAllOk 0 ⟨"x"⟩ codecOk codecFail
    transportFail transportOk (ReplyValue.err InvalidRequestBody)
  exact ⟨h.2.2.2.2.2.1 "enc" rfl, h.1⟩

/-- C4 counterexample: on a message decoding to the identifier 0, the load
and delete handlers call the repository (one call each, with the decoded
identifier accepted) and reply with the repository outcome, not with a
validation failure: the non positive identifier is not rejected before the
repository call. -/
theorem load_id_zero_hits_repository :
    envIdZero.unmarshalID "x" = .ok ⟨0⟩ ∧
    (load envIdZero 0 ⟨"x"⟩).repoCalls = [mkCtx 0] ∧
    (delete envIdZero 0 ⟨"x"⟩).repoCalls = [mkCtx 0] ∧
    (load envIdZero 0 ⟨"x"⟩).published =
      [Published.value (ReplyValue.comment (loadFromComment ⟨0, 1, "o", "c", ""⟩))] ∧
    (delete envIdZero 0 ⟨"x"⟩).published = [Published.noContent] :=
  ⟨rfl, rfl, rfl, rfl, rfl⟩

/-- C4 amended: the load and delete handlers perform no identifier
validation at all: once decoding succeeds, the decoded identifier, positive
or not, is handed unchanged to exactly one repository call, and the reply
is determined entirely by the repository outcome. -/
theorem load_delete_no_id_validation (env : Env) (now : Nat) (msg : Msg) (i : ID) :
    (env.unmarshalID msg.data = .ok i →
      ∀ c, env.repoLoadByID (mkCtx now) i.id = .ok c →
        load env now msg =
          ⟨[Published.value (ReplyValue.comment (loadFromComment c))], [mkCtx now]⟩) ∧
    (env.unmarshalID msg.data = .ok i →
      ∀ e, env.repoLoadByID (mkCtx now) i.id = .error e →
        load env now msg = ⟨[Published.value (ReplyValue.err e)], [mkCtx now]⟩) ∧
    (env.unmarshalID msg.data = .ok i →
      env.repoDeleteByID (mkCtx now) i.id = none →
        delete env now msg = ⟨[Published.noContent], [mkCtx now]⟩) ∧
    (env.unmarshalID msg.data = .ok i →
      ∀ e, env.repoDeleteByID (mkCtx now) i.id = some e →
        delete env now msg = ⟨[Published.value (ReplyValue.err e)], [mkCtx now]⟩) := by
  refine ⟨?_, ?_, ?_, ?_⟩
  all_goals intros
  all_goals simp [load, delete, *]

/-- C4 amended witness: with the identifier 0 decoded and a succeeding
repository, load replies with the loaded entity and delete with no
content, each after exactly one repository call. -/
theorem load_delete_no_id_validation_witness :
    load envIdZero 0 ⟨"x"⟩ =
      ⟨[Published.value (ReplyValue.comment (loadFromComment ⟨0, 1, "o", "c", ""⟩))],
        [mkCtx 0]⟩ ∧
    delete envIdZero 0 ⟨"x"⟩ = ⟨[Published.noContent], [mkCtx 0]⟩ := by
  have h := load_delete_no_id_validation envIdZero 0 ⟨"x"⟩ ⟨0⟩
  exact ⟨h.1 rfl ⟨0, 1, "o", "c", ""⟩ rfl, h.2.2.1 rfl rfl⟩

/-- C5 counterexample: a create request whose issuer is whitespace only and
whose other fields are valid is accepted by the create validation, so a
whitespace only issuer does not count as empty. -/
theorem whitespace_issuer_accepted :
    isBlank blankIssuerTicket.issuer = true ∧ blankIssuerTicket.issuer ≠ "" ∧
    validateCreateTicket blankIssuerTicket = none := by
  refine ⟨by decide, by decide, by decide⟩

/-- C5 amended: for create requests the first violated rule, in the fixed
order issuer, owner, subject, content, status, determines the returned
code (a request missing both issuer and owner yields the issuer missing
code); a whitespace only subject or content counts as empty, while issuer
and owner are rejected only when literally empty; update requests follow
their own fixed order: identifier positivity first, then status
validity. -/
theorem create_validation_order (t u : Ticket) :
    (t.issuer = "" → validateCreateTicket t = some "create_ticket.empty_issuer") ∧
    (t.issuer ≠ "" → t.owner = "" →
      validateCreateTicket t = some "create_ticket.empty_owner") ∧
    (t.issuer ≠ "" → t.owner ≠ "" → isBlank t.subject = true →
      validateCreateTicket t = some "create_ticket.empty_subject") ∧
    (t.issuer ≠ "" → t.owner ≠ "" → isBlank t.subject = false → isBlank t.content = true →
      validateCreateTicket t = some "create_ticket.empty_content") ∧
    (t.issuer ≠ "" → t.owner ≠ "" → isBlank t.subject = false → isBlank t.content = false →
      creatable t.status = false →
      validateCreateTicket t = some "create_ticket.invalid_status") ∧
    (t.issuer ≠ "" → t.owner ≠ "" → isBlank t.subject = false → isBlank t.content = false →
      creatable t.status = true → validateCreateTicket t = none) ∧
    (u.id < 1 → validateUpdateTicket u = some "update_ticket.invalid_id") ∧
    (1 ≤ u.id → updatable u.status = false →
      validateUpdateTicket u = some "update_ticket.invalid_ticket_status") ∧
    (1 ≤ u.id → updatable u.status = true → validateUpdateTicket u = none) := by
  refine ⟨?_, ?_, ?_, ?_, ?_, ?_, ?_, ?_, ?_⟩
  · intros; simp [validateCreateTicket, *]
  · intros; simp [validateCreateTicket, *]
  · intros; simp [validateCreateTicket, *]
  · intros; simp [validateCreateTicket, *]
  · intros; simp [validateCreateTicket, *]
  · intros; simp [validateCreateTicket, *]
  · intro h; simp [validateUpdateTicket, h]
  · intro h h2
    have h3 : ¬ u.id < 1 := by omega
    simp [validateUpdateTicket, h3, h2]
  · intro h h2
    have h3 : ¬ u.id < 1 := by omega
    simp [validateUpdateTicket, h3, h2]

/-- C5 amended witness: a request missing both issuer and owner yields the
issuer missing code; a whitespace only subject yields the subject code; a
resolved status yields the invalid status code; an update with identifier
0 and a new status yields the invalid identifier code, and with identifier
1 and a new status the invalid status code. -/
theorem create_validation_order_witness :
    validateCreateTicket ⟨0, "", "", "Documentation", "Hello", "", .high, .new⟩ =
      some "create_ticket.empty_issuer" ∧
    validateCreateTicket ⟨0, "Jibit", "09", " ", "Hello", "", .high, .new⟩ =
      some "create_ticket.empty_subject" ∧
    validateCreateTicket ⟨0, "Jibit", "09", "Doc", "Hello", "", .high, .resolved⟩ =
      some "create_ticket.invalid_status" ∧
    validateUpdateTicket ⟨0, "", "", "", "", "", .high, .new⟩ =
      some "update_ticket.invalid_id" ∧
    validateUpdateTicket ⟨1, "", "", "", "", "", .high, .new⟩ =
      some "update_ticket.invalid_ticket_status" ∧
    validateUpdateTicket ⟨1, "", "", "", "", "", .high, .resolved⟩ = none := by
  have h1 := create_validation_order ⟨0, "", "", "Documentation", "Hello", "", .high, .new⟩
    ⟨0, "", "", "", "", "", .high, .new⟩
  have h2 := create_validation_order ⟨0, "Jibit", "09", " ", "Hello", "", .high, .new⟩
    ⟨1, "", "", "", "", "", .high, .new⟩
  have h3 := create_validation_order ⟨0, "Jibit", "09", "Doc", "Hello", "", .high, .resolved⟩
    ⟨1, "", "", "", "", "", .high, .resolved⟩
  exact ⟨h1.1 rfl, h2.2.2.1 (by decide) (by decide) (by decide),
    h3.2.2.2.2.1 (by decide) (by decide) (by decide) (by decide) rfl,
    h1.2.2.2.2.2.2.1 (by decide),
    h2.2.2.2.2.2.2.2.1 (by decide) rfl,
    h3.2.2.2.2.2.2.2.2 (by decide) rfl⟩
/-- Helper: find skips a prefix on which the predicate fails everywhere. -/
theorem find?_append_of_none {α : Type} (p : α → Bool) (l1 l2 : List α)
    (h : ∀ x ∈ l1, p x = false) : (l1 ++ l2).find? p = l2.find? p := by
  induction l1 with
  | nil => rfl
  | cons a l ih =>
    rw [List.cons_append, List.find?_cons, h a (by simp)]
    exact ih fun x hx => h x (by simp [hx])

/-- Helper: find commutes with a map that preserves the tested predicate. -/
theorem find?_map_congr {α β : Type} (f : α → β) (p : β → Bool) (q : α → Bool)
    (l : List α) (h : ∀ x, p (f x) = q x) :
    (l.map f).find? p = Option.map f (l.find? q) := by
  induction l with
  | nil => rfl
  | cons a l ih =>
    rw [List.map_cons, List.find?_cons, List.find?_cons, h a]
    cases q a with
    | true => rfl
    | false => exact ih

/-- Helper: unpacking the well formedness of a repository state. -/
theorem wf_spec {r : Repo} (h : wf r = true) :
    ∀ t ∈ r.rows, t.id < r.nextId ∧ t.issuedAt ≤ r.clock ∧ t.updatedAt ≤ r.clock := by
  intro t ht
  have h2 := List.all_eq_true.mp h t ht
  simp only [Bool.and_eq_true, decide_eq_true_eq] at h2
  exact ⟨h2.1.1, h2.1.2, h2.2⟩

/-- C8: inserting an entity and loading it by the assigned identifier
returns the row carrying exactly the inserted field values, and both of
its timestamps are at or before the repository time at read time. -/
theorem insert_load_roundtrip (r : Repo) (e : NewTicket) (h : wf r = true) :
    (loadTicket (insertTicket r e).1 (insertTicket r e).2).2 =
      some ⟨r.nextId, e.issuer, e.owner, e.subject, e.content, e.metadata,
        e.importance, e.status, r.clock + 1, r.clock + 1⟩ ∧
    r.clock + 1 ≤ (loadTicket (insertTicket r e).1 (insertTicket r e).2).1.clock := by
  constructor
  · show ((r.rows ++
        [(⟨r.nextId, e.issuer, e.owner, e.subject, e.content, e.metadata,
          e.importance, e.status, r.clock + 1, r.clock + 1⟩ : StoredTicket)]).find?
        fun t : StoredTicket => t.id == r.nextId) =
      some ⟨r.nextId, e.issuer, e.owner, e.subject, e.content, e.metadata,
        e.importance, e.status, r.clock + 1, r.clock + 1⟩
    rw [find?_append_of_none]
    · simp [List.find?_cons]
    · intro x hx
      have hlt := (wf_spec h x hx).1
      simp only [beq_eq_false_iff_ne]
      omega
  · show r.clock + 1 ≤ r.clock + 1 + 1
    omega

/-- C8 witness: inserting the sample ticket into the empty repository and
loading identifier 1 returns the sample fields with both timestamps 1. -/
theorem insert_load_roundtrip_witness :
    (loadTicket (insertTicket emptyRepo sampleNewTicket).1
        (insertTicket emptyRepo sampleNewTicket).2).2 =
      some ⟨1, "Jibit", "09203091992", "Documentation", "Hello", "", .high, .new, 1, 1⟩ := by
  have h := insert_load_roundtrip emptyRepo sampleNewTicket (by decide)
  exact h.1

/-- C9: a successful update of a stored ticket sets its updated timestamp
to the repository time of the update, which strictly exceeds the previous
updated timestamp of that ticket. -/
theorem update_advances_updatedAt (r : Repo) (id : Nat) (st : TicketStatus)
    (t : StoredTicket) (h : wf r = true)
    (hf : r.rows.find? (fun x => x.id == id) = some t) :
    (updateTicket r id st).2 = true ∧
    ((updateTicket r id st).1.rows.find? fun x => x.id == id) =
      some { t with status := st, updatedAt := r.clock + 1 } ∧
    t.updatedAt < r.clock + 1 := by
  have hmem := List.mem_of_find?_eq_some hf
  have hpt := List.find?_some hf
  have hany : r.rows.any (fun x => x.id == id) = true :=
    List.any_eq_true.mpr ⟨t, hmem, hpt⟩
  refine ⟨by simp [updateTicket, hany], ?_, ?_⟩
  · have hcong : ∀ x : StoredTicket,
        ((if x.id == id then { x with status := st, updatedAt := r.clock + 1 } else x).id ==
          id) = (x.id == id) := by
      intro x
      cases hx : x.id == id with
      | true => simp [hx]
      | false => simp [hx]
    have hrows : (updateTicket r id st).1.rows =
        r.rows.map (fun x =>
          if x.id == id then { x with status := st, updatedAt := r.clock + 1 } else x) := by
      simp [updateTicket, hany]
    have hpteq : t.id = id := by simpa using hpt
    rw [hrows, find?_map_congr _ _ (fun x => x.id == id) _ hcong, hf]
    simp [hpteq]
  · have := (wf_spec h t hmem).2.2
    omega

/-- C9 witness: updating the sample row at time 2 succeeds and advances its
updated timestamp from 1 to 2. -/
theorem update_advances_updatedAt_witness :
    (updateTicket oneRowRepo 1 TicketStatus.resolved).2 = true ∧
    ((updateTicket oneRowRepo 1 TicketStatus.resolved).1.rows.find? fun x => x.id == 1) =
      some ⟨1, "Jibit", "09203091992", "Documentation", "Hello", "", .high, .resolved, 1, 2⟩ ∧
    (1 : Nat) < 2 := by
  have h := update_advances_updatedAt oneRowRepo 1 TicketStatus.resolved
    ⟨1, "Jibit", "09203091992", "Documentation", "Hello", "", .high, .new, 1, 1⟩
    (by decide) (by decide)
  exact ⟨h.1, h.2.1, h.2.2⟩

end Kiosk
